import Mathlib

set_option maxRecDepth 16000

/-!
Verification development for the trip-costing, emissions and fleet-analytics
engine of a corporate-mobility web application.

The embedding models JavaScript numbers as `Option ℚ` (`none` standing for
`NaN`; infinities cannot arise on the modelled code paths because every
division is by a non-zero constant or guarded by a positivity test), strings
as Lean `String`, and the regular-expression scans actually performed by the
source (`/([\d.]+)/`, `/(\d+)h/`, `/(\d+)\s*min/`, `/([\d.]+)L/`) as explicit
scanners over character lists.  `Date` values are modelled as UTC
epoch-millisecond integers together with the standard civil-calendar
conversion (the behaviour of the JavaScript `Date` library functions used by
the dashboard).  JavaScript exponent-notation float literals are not
modelled: no modelled code path nor any claim depends on them.
-/

/-! ## JavaScript number model -/

/-- A JavaScript number: `none` is `NaN`. -/
abbrev JsNum := Option ℚ

/-- Addition; `NaN` propagates. -/
def jsAdd (a b : JsNum) : JsNum :=
  match a, b with
  | some x, some y => some (x + y)
  | _, _ => none

/-- Multiplication; `NaN` propagates. -/
def jsMul (a b : JsNum) : JsNum :=
  match a, b with
  | some x, some y => some (x * y)
  | _, _ => none

/-- Division by a fixed non-zero rational constant; `NaN` propagates. -/
def jsDivC (a : JsNum) (c : ℚ) : JsNum := a.map (fun x => x / c)

/-- Sum of a list of JavaScript numbers (`NaN` absorbing). -/
def jsSum (l : List JsNum) : JsNum := l.foldr jsAdd (some 0)

/-- `a < c` as in JavaScript: every comparison with `NaN` is false. -/
def jsLt (a : JsNum) (c : ℚ) : Bool :=
  match a with
  | some x => decide (x < c)
  | none => false

/-- `a <= c` as in JavaScript: every comparison with `NaN` is false. -/
def jsLe (a : JsNum) (c : ℚ) : Bool :=
  match a with
  | some x => decide (x ≤ c)
  | none => false

/-- `Math.round`: round half toward positive infinity. -/
def jsRound (q : ℚ) : ℤ := Rat.floor (q + 1 / 2)

/-! ## String scanning (the regular expressions used by the source) -/

/-- Character class `[\d.]`. -/
def isDigitOrDot (c : Char) : Bool := c.isDigit || c == '.'

/-- JavaScript whitespace (the forms relevant to `\s` here). -/
def isWs (c : Char) : Bool := c == ' ' || c == '\t' || c == '\n' || c == '\r'

/-- Decimal digits to a natural number. -/
def digitsToNat (l : List Char) : ℕ :=
  l.foldl (fun n c => 10 * n + (c.toNat - 48)) 0

/-- `parseFloat` on a leading `digits [. digits]` prefix; `none` is `NaN`
(no digit at all, e.g. `parseFloat(".")`). -/
def parseRunToRat (l : List Char) : Option ℚ :=
  let intPart := l.takeWhile Char.isDigit
  let rest := l.dropWhile Char.isDigit
  match rest with
  | '.' :: rest2 =>
    let fracPart := rest2.takeWhile Char.isDigit
    if intPart.isEmpty && fracPart.isEmpty then none
    else some ((digitsToNat intPart : ℚ) + (digitsToNat fracPart : ℚ) / (10 : ℚ) ^ fracPart.length)
  | _ => if intPart.isEmpty then none else some ((digitsToNat intPart : ℚ))

/-- Does `pat` occur at the head of the list? -/
def startsWithList : List Char → List Char → Bool
  | [], _ => true
  | _ :: _, [] => false
  | p :: ps, c :: cs => p == c && startsWithList ps cs

/-- Does `pat` occur anywhere in the list (JavaScript `String.includes`)? -/
def containsList (pat : List Char) : List Char → Bool
  | [] => pat.isEmpty
  | c :: cs => startsWithList pat (c :: cs) || containsList pat cs

/-- JavaScript `s.includes(pat)`. -/
def containsSub (s pat : String) : Bool := containsList pat.data s.data

/-- JavaScript `s.toLowerCase()` (character-wise simple lowering). -/
def toLowerStr (s : String) : String := ⟨s.data.map Char.toLower⟩

/-- Leftmost maximal run of characters satisfying `p` whose remainder
satisfies `follow`; this is how a backtracking regex matches `RUN+ FOLLOW`
(a shortened run is never tried because its next character is still in the
class and hence cannot start `FOLLOW` for the follow patterns used here).
Fuelled so that it is structurally recursive; call with the list's length. -/
def findRunFB (p : Char → Bool) (follow : List Char → Bool) : ℕ → List Char → Option (List Char)
  | 0, _ => none
  | _, [] => none
  | fuel + 1, c :: cs =>
    if p c then
      let run := (c :: cs).takeWhile p
      let rest := (c :: cs).dropWhile p
      if follow rest then some run else findRunFB p follow fuel rest
    else findRunFB p follow fuel cs

/-- Leftmost maximal run of characters satisfying `p` (regex `/(RUN+)/`). -/
def firstRun (p : Char → Bool) (l : List Char) : Option (List Char) :=
  findRunFB p (fun _ => true) l.length l

/-- JavaScript `parseFloat` on a whole string: optional whitespace, optional
sign, then a leading `digits [. digits]` prefix; `none` is `NaN`. -/
def jsParseFloat (s : String) : Option ℚ :=
  match s.data.dropWhile isWs with
  | '-' :: rest => (parseRunToRat rest).map (fun q => -q)
  | '+' :: rest => parseRunToRat rest
  | l => parseRunToRat l

/-! ## `src/utils/getCarCost.ts` -/

/-- `trip.distance` has TypeScript type `string | number`. -/
inductive StrOrNum where
  | str : String → StrOrNum
  | num : JsNum → StrOrNum

structure Trip where
  carModel : String
  distance : StrOrNum

structure Car where
  brand : String
  model : String
  fuelType : String
  efficiency : String
deriving DecidableEq

/-- The static Czech fuel/energy price table (CZK); the modelled JavaScript
object lookup yields `none` for an absent key. -/
def czFuelPrices : String → Option ℚ := fun fuelType =>
  if fuelType = "Petrol" then some (3371 / 100)
  else if fuelType = "Diesel" then some (3224 / 100)
  else if fuelType = "Hybrid" then some (3371 / 100)
  else if fuelType = "Plug-in Hybrid Electric Vehicle" then some (3371 / 100)
  else if fuelType = "Battery Electric Vehicle" then some 15
  else none

/-- `parseEfficiencyValue`: `eff.match(/([\d.]+)/)` then `parseFloat`. -/
def parseEfficiencyValue (eff : String) : Option ℚ :=
  match firstRun isDigitOrDot eff.data with
  | some run => parseRunToRat run
  | none => none

/-- The distance actually used by `getCarCost`:
`typeof trip.distance === "string" ? parseFloat(trip.distance) : trip.distance`. -/
def tripDistanceKm (trip : Trip) : JsNum :=
  match trip.distance with
  | .str s => jsParseFloat s
  | .num n => n

/-- `getCarCost`.  The source returns the number `0` as its
"unavailable" marker on every failure path (`!distanceKm || isNaN`, car not
found, `!eff`, `!unitPrice`); otherwise
`Math.round(distanceKm * (eff / 100) * unitPrice * 100) / 100`. -/
def getCarCost (trip : Trip) (cars : List Car) (prices : String → Option ℚ) : ℚ :=
  match tripDistanceKm trip with
  | none => 0
  | some distanceKm =>
    if distanceKm = 0 then 0
    else
      match cars.find? (fun c => toLowerStr (c.brand ++ " " ++ c.model) == toLowerStr trip.carModel) with
      | none => 0
      | some car =>
        match parseEfficiencyValue car.efficiency with
        | none => 0
        | some eff =>
          if eff = 0 then 0
          else
            match prices car.fuelType with
            | none => 0
            | some unitPrice =>
              if unitPrice = 0 then 0
              else ((jsRound (distanceKm * (eff / 100) * unitPrice * 100) : ℤ) : ℚ) / 100

/-! ## `src/components/GoogleMapsRouting.tsx` -/

/-- `emissionFactors["Small car"]`. -/
def smallCarFactors : String → Option ℚ := fun fuelType =>
  if fuelType = "Diesel" then some (13994 / 100000)
  else if fuelType = "Petrol" then some (1437 / 10000)
  else if fuelType = "Hybrid" then some (11274 / 100000)
  else if fuelType = "Plug-in Hybrid Electric Vehicle" then some (3012 / 100000)
  else if fuelType = "Battery Electric Vehicle" then some 0
  else none

/-- `emissionFactors["Medium car"]`. -/
def mediumCarFactors : String → Option ℚ := fun fuelType =>
  if fuelType = "Diesel" then some (16807 / 100000)
  else if fuelType = "Petrol" then some (17726 / 100000)
  else if fuelType = "Hybrid" then some (1149 / 10000)
  else if fuelType = "Plug-in Hybrid Electric Vehicle" then some (812 / 10000)
  else if fuelType = "Battery Electric Vehicle" then some 0
  else none

/-- `emissionFactors["Large car"]`. -/
def largeCarFactors : String → Option ℚ := fun fuelType =>
  if fuelType = "Diesel" then some (20729 / 100000)
  else if fuelType = "Petrol" then some (26885 / 100000)
  else if fuelType = "Hybrid" then some (15486 / 100000)
  else if fuelType = "Plug-in Hybrid Electric Vehicle" then some (10306 / 100000)
  else if fuelType = "Battery Electric Vehicle" then some 0
  else none

/-- `emissionFactors["Average car"]`. -/
def averageCarFactors : String → Option ℚ := fun fuelType =>
  if fuelType = "Diesel" then some (16984 / 100000)
  else if fuelType = "Petrol" then some (1645 / 10000)
  else if fuelType = "Hybrid" then some (12607 / 100000)
  else if fuelType = "Plug-in Hybrid Electric Vehicle" then some (936 / 10000)
  else if fuelType = "Battery Electric Vehicle" then some 0
  else none

/-- The emission-factor table, keyed by market segment then fuel type. -/
def emissionFactors : String → Option (String → Option ℚ) := fun segment =>
  if segment = "Small car" then some smallCarFactors
  else if segment = "Medium car" then some mediumCarFactors
  else if segment = "Large car" then some largeCarFactors
  else if segment = "Average car" then some averageCarFactors
  else none

/-- `Number.prototype.toFixed(1)` for a non-negative rational: nearest
multiple of `1/10`, ties toward the larger value. -/
def toFixed1Nonneg (q : ℚ) : String :=
  toString (⌊q * 10 + 1 / 2⌋ / 10) ++ "." ++ toString (⌊q * 10 + 1 / 2⌋ % 10)

/-- `Number.prototype.toFixed(1)` (sign handled as in the ECMAScript spec). -/
def toFixed1 (q : ℚ) : String :=
  if q < 0 then "-" ++ toFixed1Nonneg (-q) else toFixed1Nonneg q

/-- `calculateRealEmissions`: looks up `emissionFactors[marketSegment][fuelType]`;
`"N/A"` when either key is absent, otherwise `(factor * distanceKm).toFixed(1)`
followed by `"kg CO₂"` (the source's `< 1` conditional has identical branches
and is kept). -/
def calculateRealEmissions (fuelType marketSegment : String) (distanceKm : ℚ) : String :=
  match emissionFactors marketSegment with
  | some segmentData =>
    match segmentData fuelType with
    | some factor =>
      if factor * distanceKm < 1 then toFixed1 (factor * distanceKm) ++ "kg CO₂"
      else toFixed1 (factor * distanceKm) ++ "kg CO₂"
    | none => "N/A"
  | none => "N/A"

/-- Does any transit vehicle kind denote train/rail service
(`type.toLowerCase().includes('train') || ...includes('rail')`)? -/
def hasTrainService (transitTypes : List String) : Bool :=
  transitTypes.any (fun t => containsSub (toLowerStr t) "train" || containsSub (toLowerStr t) "rail")

/-- `calculatePublicTransportCost`: rail takes priority at
`Math.round(distance * 1.5)` CZK; otherwise duration tiers 30 / 40 / 120 CZK. -/
def calculatePublicTransportCost (distance durationMinutes : ℚ) (transitTypes : List String) : String :=
  if hasTrainService transitTypes then
    toString (jsRound (distance * (3 / 2))) ++ " CZK"
  else
    if durationMinutes < 30 then "30 CZK"
    else if durationMinutes ≤ 90 then "40 CZK"
    else "120 CZK"

/-! ## Dashboard (`src/app/dashboard/page.tsx`): trip records and parsers -/

/-- A persisted trip record.  All fields are the strings stored in the log,
except `tripTimestamp`, which is modelled as the UTC epoch-millisecond value
denoted by the stored ISO timestamp string (ISO parsing is `Date`-library
behaviour outside the scope of the embedding). -/
structure TripRecord where
  userId : String
  userDepartment : String
  userFuelType : String
  userMarketSegment : String
  carBrand : String
  carModel : String
  carFuelType : String
  carEfficiency : String
  distance : String
  duration : String
  co2Emissions : String
  transportType : String
  cost : String
  startLocation : String
  destination : String
  scheduledDateTime : String
  tripTimestamp : ℤ
deriving DecidableEq

/-- The dashboard's filter state; `period` ranges over
`"Today" | "Week" | "Month" | "Year"` and the other fields use `""` for
"no filter". -/
structure FilterState where
  period : String
  department : String
  driverName : String
  carModel : String

/-- `parseDistance`: `parseFloat(distance) || 0`. -/
def parseDistance (distance : String) : ℚ := (jsParseFloat distance).getD 0

/-- `parseDuration`: match `/(\d+)h/` and `/(\d+)\s*min/`, combine to seconds;
an absent group contributes 0 and `parseInt` on a matched digit run never
fails, so the result is a genuine number. -/
def parseDuration (duration : String) : ℚ :=
  let hours : ℕ :=
    match findRunFB Char.isDigit (fun rest => rest.head? == some 'h') duration.data.length duration.data with
    | some run => digitsToNat run
    | none => 0
  let minutes : ℕ :=
    match findRunFB Char.isDigit (fun rest => startsWithList "min".data (rest.dropWhile isWs))
        duration.data.length duration.data with
    | some run => digitsToNat run
    | none => 0
  (((hours * 60 + minutes) * 60 : ℕ) : ℚ)

/-- `parseCO2`: first `/([\d.]+)/` run, `parseFloat`, divided by 1000 unless
the string contains `"kg"`; `0` when no run exists; `NaN` when the run is
dots only. -/
def parseCO2 (co2 : String) : JsNum :=
  match firstRun isDigitOrDot co2.data with
  | some run =>
    match parseRunToRat run with
    | some value => if containsSub co2 "kg" then some value else some (value / 1000)
    | none => none
  | none => some 0

/-- `parseCost`: first `/([\d.]+)/` run, `parseFloat`, times 23 when the
string contains `"$"`; `0` when no run exists; `NaN` when the run is dots
only. -/
def parseCost (cost : String) : JsNum :=
  match firstRun isDigitOrDot cost.data with
  | some run =>
    match parseRunToRat run with
    | some value => if containsSub cost "$" then some (value * 23) else some value
    | none => none
  | none => some 0

/-- `getFuelConsumption`: match `/([\d.]+)L/` against the efficiency label;
`parseFloat` of the captured run when it exists (NaN when the run is dots
only), and the fallback constant 6.5 L/100km when there is no match.  The
`carModel` parameter is unused, as in the source. -/
def getFuelConsumption (carModel carEfficiency : String) : JsNum :=
  match findRunFB isDigitOrDot (fun rest => rest.head? == some 'L')
      carEfficiency.data.length carEfficiency.data with
  | some run => parseRunToRat run
  | none => some (13 / 2)

/-! ## Dashboard: aggregated metrics -/

def totalDistanceOf (trips : List TripRecord) : ℚ :=
  trips.foldl (fun sum trip => sum + parseDistance trip.distance) 0

def totalDurationSecondsOf (trips : List TripRecord) : ℚ :=
  trips.foldl (fun sum trip => sum + parseDuration trip.duration) 0

def totalCO2kgOf (trips : List TripRecord) : JsNum :=
  trips.foldl (fun sum trip => jsAdd sum (parseCO2 trip.co2Emissions)) (some 0)

def totalCostCZKOf (trips : List TripRecord) : JsNum :=
  trips.foldl (fun sum trip => jsAdd sum (parseCost trip.cost)) (some 0)

/-- `Σ (distance * fuelPer100km / 100)` with the per-trip consumption. -/
def totalFuelLitersOf (trips : List TripRecord) : JsNum :=
  trips.foldl
    (fun sum trip =>
      jsAdd sum (jsDivC (jsMul (some (parseDistance trip.distance))
        (getFuelConsumption trip.carModel trip.carEfficiency)) 100))
    (some 0)

def avgFuelPer100kmOf (trips : List TripRecord) : JsNum :=
  if 0 < totalDistanceOf trips then
    (totalFuelLitersOf trips).map (fun f => f / totalDistanceOf trips * 100)
  else some 0

def avgCO2PerKmOf (trips : List TripRecord) : JsNum :=
  if 0 < totalDistanceOf trips then
    (totalCO2kgOf trips).map (fun c => c * 1000 / totalDistanceOf trips)
  else some 0

def avgSpeedOf (trips : List TripRecord) : ℚ :=
  if 0 < totalDurationSecondsOf trips then
    totalDistanceOf trips / (totalDurationSecondsOf trips / 3600)
  else 0

def costPerKmOf (trips : List TripRecord) : JsNum :=
  if 0 < totalDistanceOf trips then
    (totalCostCZKOf trips).map (fun c => c / totalDistanceOf trips)
  else some 0

/-- `Math.ceil(totalCO2kg / 21)`. -/
def treesToOffsetOf (trips : List TripRecord) : Option ℤ :=
  (totalCO2kgOf trips).map (fun c => ⌈c / 21⌉)

def carbonFootprintRatingOf (trips : List TripRecord) : String :=
  if jsLt (totalCO2kgOf trips) 100 then "Low"
  else if jsLt (totalCO2kgOf trips) 500 then "Moderate"
  else "High"

def fuelEfficiencyRatingOf (trips : List TripRecord) : String :=
  if jsLe (avgFuelPer100kmOf trips) 6 then "Good"
  else if jsLe (avgFuelPer100kmOf trips) 8 then "Moderate"
  else "Poor"

/-- The `emissionLevel` if-chain; the initial `'No Data'` value of the source
is always overwritten because the chain ends in an unconditional `else`. -/
def emissionLevelOf (trips : List TripRecord) : String :=
  if jsLe (avgCO2PerKmOf trips) 50 then "Excellent"
  else if jsLe (avgCO2PerKmOf trips) 100 then "Good"
  else if jsLe (avgCO2PerKmOf trips) 150 then "Moderate"
  else if jsLe (avgCO2PerKmOf trips) 200 then "High"
  else "Very High"

/-- The dashboard's metrics record.  The presentation-only `emissionColor`
field (absent from the source's empty-set record) is omitted. -/
structure FleetMetrics where
  totalDistance : ℚ
  totalFuelLiters : JsNum
  avgFuelPer100km : JsNum
  totalDurationSeconds : ℚ
  totalCostCZK : JsNum
  totalCO2kg : JsNum
  avgCO2PerKm : JsNum
  avgSpeed : ℚ
  costPerKm : JsNum
  treesToOffset : Option ℤ
  carbonFootprintRating : String
  fuelEfficiencyRating : String
  emissionLevel : String

/-- The `metrics` computation over the already-filtered trip list. -/
def metrics (filteredTrips : List TripRecord) : FleetMetrics :=
  if filteredTrips.length = 0 then
    { totalDistance := 0, totalFuelLiters := some 0, avgFuelPer100km := some 0,
      totalDurationSeconds := 0, totalCostCZK := some 0, totalCO2kg := some 0,
      avgCO2PerKm := some 0, avgSpeed := 0, costPerKm := some 0, treesToOffset := some 0,
      carbonFootprintRating := "No Data", fuelEfficiencyRating := "No Data",
      emissionLevel := "No Data" }
  else
    { totalDistance := totalDistanceOf filteredTrips,
      totalFuelLiters := totalFuelLitersOf filteredTrips,
      avgFuelPer100km := avgFuelPer100kmOf filteredTrips,
      totalDurationSeconds := totalDurationSecondsOf filteredTrips,
      totalCostCZK := totalCostCZKOf filteredTrips,
      totalCO2kg := totalCO2kgOf filteredTrips,
      avgCO2PerKm := avgCO2PerKmOf filteredTrips,
      avgSpeed := avgSpeedOf filteredTrips,
      costPerKm := costPerKmOf filteredTrips,
      treesToOffset := treesToOffsetOf filteredTrips,
      carbonFootprintRating := carbonFootprintRatingOf filteredTrips,
      fuelEfficiencyRating := fuelEfficiencyRatingOf filteredTrips,
      emissionLevel := emissionLevelOf filteredTrips }

/-! ## Civil-calendar model of the JavaScript `Date` library (UTC)

The dashboard runs `new Date(...)` arithmetic; the embedding models an
instant as its UTC epoch-millisecond count and implements the standard
proleptic-Gregorian conversion between day numbers and `(year, month, day)`
triples that `Date` exposes through `getFullYear`, `getMonth`, `getDate`
and the `new Date(year, month, day)` constructor. -/

/-- Day-of-era of the first day of year-of-era `y` (Gregorian). -/
def yearStart (y : ℤ) : ℤ := 365 * y + y / 4 - y / 100 + y / 400

/-- The leap-adjusted day count used to recover the year-of-era. -/
def leapAdjusted (a : ℤ) : ℤ := a - a / 1460 + a / 36524 - a / 146096

/-- Per-year endpoint check for the year-of-era extraction. -/
def endpointB (y : ℤ) : Bool :=
  decide (365 * y ≤ leapAdjusted (yearStart y)) &&
  decide (leapAdjusted (yearStart (y + 1) - 1) ≤ 365 * y + 364)

/-- Fuelled binary-splitting range check for a decidable integer property. -/
def boolRangeCheck (p : ℤ → Bool) (fuel lo len : ℕ) : Bool :=
  match fuel with
  | 0 => decide (len = 0)
  | fuel + 1 =>
    if len = 0 then true
    else if len = 1 then p (lo : ℤ)
    else boolRangeCheck p fuel lo (len / 2) && boolRangeCheck p fuel (lo + len / 2) (len - len / 2)

/-- Era index of a day number (400-year Gregorian cycles). -/
def eraOf (z : ℤ) : ℤ := (z + 719468) / 146097

/-- Day-of-era of a day number. -/
def doeOf (z : ℤ) : ℤ := z + 719468 - eraOf z * 146097

/-- Year-of-era of a day-of-era. -/
def yoeOf (doe : ℤ) : ℤ := (doe - doe / 1460 + doe / 36524 - doe / 146096) / 365

/-- Day-of-year (0 = March 1) of a day-of-era. -/
def doyOf (doe : ℤ) : ℤ := doe - (365 * yoeOf doe + yoeOf doe / 4 - yoeOf doe / 100)

/-- Shifted month index (0 = March) of a day-of-era. -/
def mpOf (doe : ℤ) : ℤ := (5 * doyOf doe + 2) / 153

/-- Day of month (1-based) of a day-of-era. -/
def dayOf (doe : ℤ) : ℤ := doyOf doe - (153 * mpOf doe + 2) / 5 + 1

/-- Civil month (1-based) of a day-of-era. -/
def monthOf (doe : ℤ) : ℤ := mpOf doe + (if mpOf doe < 10 then 3 else -9)

/-- Day number to `(year, month 1-based, day)`. -/
def civilFromDays (z : ℤ) : ℤ × ℤ × ℤ :=
  (yoeOf (doeOf z) + eraOf z * 400 + (if monthOf (doeOf z) ≤ 2 then 1 else 0),
   monthOf (doeOf z), dayOf (doeOf z))

/-- `(year, month 1-based, day)` to day number; linear in `d`, so from a
valid triple an out-of-range day rolls over exactly as JavaScript's
`setDate` does. -/
def daysFromCivil (y m d : ℤ) : ℤ :=
  let yAdj := y - (if m ≤ 2 then 1 else 0)
  let era := yAdj / 400
  let yoe := yAdj - era * 400
  let doy := (153 * (m + (if 2 < m then -3 else 9)) + 2) / 5 + d - 1
  let doe := yoe * 365 + yoe / 4 - yoe / 100 + doy
  era * 146097 + doe - 719468

/-- A JavaScript `Date` value: UTC epoch milliseconds. -/
structure JsDate where
  ms : ℤ

def msPerDay : ℤ := 86400000

/-- The day number containing an instant. -/
def dayNumber (t : JsDate) : ℤ := t.ms / msPerDay

/-- The civil `(year, month 1-based, day)` triple of an instant. -/
def civilOf (t : JsDate) : ℤ × ℤ × ℤ := civilFromDays (dayNumber t)

/-- `Date.prototype.getFullYear`. -/
def getFullYear (t : JsDate) : ℤ := (civilOf t).1

/-- `Date.prototype.getMonth` (0-based). -/
def getMonth (t : JsDate) : ℤ := (civilOf t).2.1 - 1

/-- `Date.prototype.getDate` (day of month, 1-based). -/
def getDate (t : JsDate) : ℤ := (civilOf t).2.2

/-- `new Date(year, month0, day)` at midnight UTC (`month0` 0-based, as the
dashboard only constructs dates from `getMonth` results). -/
def mkDate (year month0 day : ℤ) : JsDate :=
  ⟨msPerDay * daysFromCivil year (month0 + 1) day⟩

/-- `isInPeriod` from the dashboard: the `Week` case builds
`weekAgo = new Date(today); weekAgo.setDate(today.getDate() - 7)`. -/
def isInPeriod (tripDate : JsDate) (period : String) (now : JsDate) : Bool :=
  let today := mkDate (getFullYear now) (getMonth now) (getDate now)
  if period = "Today" then
    (mkDate (getFullYear tripDate) (getMonth tripDate) (getDate tripDate)).ms == today.ms
  else if period = "Week" then
    decide ((mkDate (getFullYear today) (getMonth today) (getDate today - 7)).ms ≤ tripDate.ms) &&
      decide (tripDate.ms ≤ now.ms)
  else if period = "Month" then
    getMonth tripDate == getMonth now && getFullYear tripDate == getFullYear now
  else if period = "Year" then
    getFullYear tripDate == getFullYear now
  else true

/-- The dashboard's `filteredTrips` computation (`now` made explicit). -/
def filteredTrips (trips : List TripRecord) (filters : FilterState) (now : JsDate) : List TripRecord :=
  trips.filter (fun trip =>
    if ¬ (isInPeriod ⟨trip.tripTimestamp⟩ filters.period now = true) then false
    else if filters.department ≠ "" ∧ trip.userDepartment ≠ filters.department then false
    else if filters.driverName ≠ "" ∧ trip.userId ≠ filters.driverName then false
    else if filters.carModel ≠ "" ∧ trip.carModel ≠ filters.carModel then false
    else true)

/-! ## Specification-side predicates for the filter windows -/

/-- Same calendar day: equal year, month and day-of-month. -/
def sameCalendarDay (a b : JsDate) : Prop :=
  getFullYear a = getFullYear b ∧ getMonth a = getMonth b ∧ getDate a = getDate b

/-- Midnight (UTC) of the calendar day containing an instant. -/
def startOfDay (t : JsDate) : ℤ := msPerDay * dayNumber t

/-- Within the trailing 7 calendar days through `now` inclusive: from
midnight seven days before `now`'s calendar day, up to `now` itself. -/
def inTrailingWeek (t now : JsDate) : Prop :=
  startOfDay now - 7 * msPerDay ≤ t.ms ∧ t.ms ≤ now.ms

/-- Same calendar month of the same year. -/
def sameCalendarMonth (a b : JsDate) : Prop :=
  getMonth a = getMonth b ∧ getFullYear a = getFullYear b

/-- Same calendar year. -/
def sameCalendarYear (a b : JsDate) : Prop := getFullYear a = getFullYear b

/-- The claim's three equality criteria: each dropdown filter is empty or
matches the corresponding field of the trip. -/
def matchesCriteria (trip : TripRecord) (filters : FilterState) : Prop :=
  (filters.department = "" ∨ trip.userDepartment = filters.department) ∧
  (filters.driverName = "" ∨ trip.userId = filters.driverName) ∧
  (filters.carModel = "" ∨ trip.carModel = filters.carModel)

instance (a b : JsDate) : Decidable (sameCalendarDay a b) := by
  unfold sameCalendarDay
  infer_instance

instance (t now : JsDate) : Decidable (inTrailingWeek t now) := by
  unfold inTrailingWeek
  infer_instance

instance (a b : JsDate) : Decidable (sameCalendarMonth a b) := by
  unfold sameCalendarMonth
  infer_instance

instance (a b : JsDate) : Decidable (sameCalendarYear a b) := by
  unfold sameCalendarYear
  infer_instance

instance (trip : TripRecord) (filters : FilterState) : Decidable (matchesCriteria trip filters) := by
  unfold matchesCriteria
  infer_instance

/-! ## Calendar lemmas: `daysFromCivil` inverts `civilFromDays` -/

theorem leapAdjusted_mono (a b : ℤ) (h0 : 0 ≤ a) (hab : a ≤ b) :
    leapAdjusted a ≤ leapAdjusted b := by
  unfold leapAdjusted
  omega

theorem yearStart_step (y : ℤ) :
    365 ≤ yearStart (y + 1) - yearStart y ∧ yearStart (y + 1) - yearStart y ≤ 366 := by
  unfold yearStart
  omega

theorem yearStart_mono (y1 y2 : ℤ) (h : y1 ≤ y2) : yearStart y1 ≤ yearStart y2 := by
  unfold yearStart
  omega

theorem yearStart_nonneg (y : ℤ) (h : 0 ≤ y) : 0 ≤ yearStart y := by
  unfold yearStart
  omega

theorem boolRangeCheck_sound (p : ℤ → Bool) (fuel lo len : ℕ)
    (h : boolRangeCheck p fuel lo len = true) :
    ∀ i : ℕ, lo ≤ i → i < lo + len → p (i : ℤ) = true := by
  induction fuel generalizing lo len with
  | zero =>
    intro i h1 h2
    simp only [boolRangeCheck, decide_eq_true_eq] at h
    omega
  | succ fuel ih =>
    intro i h1 h2
    rw [boolRangeCheck] at h
    by_cases h0 : len = 0
    · omega
    · rw [if_neg h0] at h
      by_cases hl : len = 1
      · rw [if_pos hl] at h
        have hi : i = lo := by omega
        rwa [hi]
      · rw [if_neg hl, Bool.and_eq_true] at h
        by_cases hi : i < lo + len / 2
        · exact ih lo (len / 2) h.1 i h1 hi
        · exact ih (lo + len / 2) (len - len / 2) h.2 i (by omega) (by omega)

theorem boolRange_all (p : ℤ → Bool) (fuel lo len : ℕ)
    (h : boolRangeCheck p fuel lo len = true)
    (x : ℤ) (hx0 : (lo : ℤ) ≤ x) (hx1 : x < (lo : ℤ) + len) : p x = true := by
  have hx : x = ((x.toNat : ℕ) : ℤ) := by omega
  rw [hx]
  exact boolRangeCheck_sound p fuel lo len h x.toNat (by omega) (by omega)

set_option maxHeartbeats 2000000 in
theorem endpoint_check : boolRangeCheck endpointB 12 0 400 = true := by decide

theorem endpoint_all (y : ℤ) (h0 : 0 ≤ y) (h1 : y ≤ 399) :
    365 * y ≤ leapAdjusted (yearStart y) ∧
    leapAdjusted (yearStart (y + 1) - 1) ≤ 365 * y + 364 := by
  have h := boolRange_all endpointB 12 0 400 endpoint_check y (by omega) (by omega)
  simp only [endpointB, Bool.and_eq_true, decide_eq_true_eq] at h
  exact h

theorem year_exists :
    ∀ doe : ℤ, 0 ≤ doe →
      (doe < 146097 → ∃ y, 0 ≤ y ∧ y ≤ 399 ∧ yearStart y ≤ doe ∧ doe < yearStart (y + 1)) := by
  refine Int.le_induction ?_ ?_
  · intro
    refine ⟨0, by omega, by omega, ?_, ?_⟩ <;> simp [yearStart]
  · intro n hn ih hlt
    obtain ⟨y, hy0, hy1, hys, hyn⟩ := ih (by omega)
    by_cases hcase : n + 1 < yearStart (y + 1)
    · exact ⟨y, hy0, hy1, by omega, hcase⟩
    · refine ⟨y + 1, by omega, ?_, by omega, ?_⟩
      · by_contra hgt
        have h400 : yearStart 400 ≤ yearStart (y + 1) := yearStart_mono 400 (y + 1) (by omega)
        have : yearStart 400 = 146097 := by decide
        omega
      · have := yearStart_step (y + 1)
        omega

theorem yoeCore (doe : ℤ) (h0 : 0 ≤ doe) (h1 : doe < 146097) :
    0 ≤ leapAdjusted doe / 365 ∧ leapAdjusted doe / 365 ≤ 399 ∧
    0 ≤ doe - (365 * (leapAdjusted doe / 365) + (leapAdjusted doe / 365) / 4 -
      (leapAdjusted doe / 365) / 100) ∧
    doe - (365 * (leapAdjusted doe / 365) + (leapAdjusted doe / 365) / 4 -
      (leapAdjusted doe / 365) / 100) ≤ 365 := by
  obtain ⟨y, hy0, hy1, hys, hyn⟩ := year_exists doe h0 h1
  have hm1 : leapAdjusted (yearStart y) ≤ leapAdjusted doe :=
    leapAdjusted_mono (yearStart y) doe (yearStart_nonneg y hy0) hys
  have hm2 : leapAdjusted doe ≤ leapAdjusted (yearStart (y + 1) - 1) :=
    leapAdjusted_mono doe (yearStart (y + 1) - 1) h0 (by omega)
  have he := endpoint_all y hy0 hy1
  have hyoe : leapAdjusted doe / 365 = y := by omega
  rw [hyoe]
  have hstep := yearStart_step y
  unfold yearStart at *
  omega

theorem doeOf_bounds (z : ℤ) : 0 ≤ doeOf z ∧ doeOf z < 146097 := by
  unfold doeOf eraOf
  omega

theorem yoeOf_bounds (doe : ℤ) (h0 : 0 ≤ doe) (h1 : doe < 146097) :
    0 ≤ yoeOf doe ∧ yoeOf doe ≤ 399 := by
  have h := yoeCore doe h0 h1
  unfold leapAdjusted at h
  unfold yoeOf
  omega

theorem doyOf_bounds (doe : ℤ) (h0 : 0 ≤ doe) (h1 : doe < 146097) :
    0 ≤ doyOf doe ∧ doyOf doe ≤ 365 := by
  have h := yoeCore doe h0 h1
  unfold leapAdjusted at h
  unfold doyOf yoeOf
  omega

set_option maxHeartbeats 1000000 in
theorem reconstructCore (era yoe doy mp d m : ℤ)
    (hyoe : 0 ≤ yoe ∧ yoe ≤ 399)
    (hdoy : 0 ≤ doy ∧ doy ≤ 365)
    (hmp : mp = (5 * doy + 2) / 153)
    (hd : d = doy - (153 * mp + 2) / 5 + 1)
    (hm : m = mp + (if mp < 10 then 3 else -9)) :
    daysFromCivil (yoe + era * 400 + (if m ≤ 2 then 1 else 0)) m d
      = era * 146097 + (365 * yoe + yoe / 4 - yoe / 100 + doy) - 719468 := by
  unfold daysFromCivil
  dsimp only
  split_ifs at * <;> omega

set_option maxHeartbeats 1000000 in
theorem daysFromCivil_civilFromDays (z : ℤ) :
    daysFromCivil (civilFromDays z).1 (civilFromDays z).2.1 (civilFromDays z).2.2 = z := by
  unfold civilFromDays
  dsimp only
  rw [reconstructCore (eraOf z) (yoeOf (doeOf z)) (doyOf (doeOf z)) (mpOf (doeOf z))
      (dayOf (doeOf z)) (monthOf (doeOf z))
      (yoeOf_bounds (doeOf z) (doeOf_bounds z).1 (doeOf_bounds z).2)
      (doyOf_bounds (doeOf z) (doeOf_bounds z).1 (doeOf_bounds z).2)
      rfl rfl rfl]
  unfold doyOf doeOf eraOf
  omega

/-! ## `Date` getter lemmas -/

theorem ms_mk (x : ℤ) : (JsDate.mk x).ms = x := rfl

theorem mkDate_civil (t : JsDate) :
    mkDate (getFullYear t) (getMonth t) (getDate t) = ⟨startOfDay t⟩ := by
  unfold mkDate getFullYear getMonth getDate civilOf startOfDay
  rw [sub_add_cancel, daysFromCivil_civilFromDays]

theorem dayNumber_midnight (t : JsDate) : dayNumber ⟨startOfDay t⟩ = dayNumber t := by
  unfold startOfDay
  unfold dayNumber
  rw [ms_mk]
  unfold msPerDay
  omega

theorem getters_midnight (t : JsDate) :
    getFullYear ⟨startOfDay t⟩ = getFullYear t ∧ getMonth ⟨startOfDay t⟩ = getMonth t ∧
      getDate ⟨startOfDay t⟩ = getDate t := by
  unfold getFullYear getMonth getDate civilOf
  rw [dayNumber_midnight]
  exact ⟨rfl, rfl, rfl⟩

theorem sameCalendarDay_iff (a b : JsDate) :
    sameCalendarDay a b ↔ dayNumber a = dayNumber b := by
  constructor
  · rintro ⟨h1, h2, h3⟩
    have ha := daysFromCivil_civilFromDays (dayNumber a)
    have hb := daysFromCivil_civilFromDays (dayNumber b)
    simp only [getFullYear, getMonth, getDate, civilOf] at h1 h2 h3
    have h2m : (civilFromDays (dayNumber a)).2.1 = (civilFromDays (dayNumber b)).2.1 := by omega
    rw [← ha, ← hb, h1, h2m, h3]
  · intro h
    simp only [sameCalendarDay, getFullYear, getMonth, getDate, civilOf]
    rw [h]
    exact ⟨rfl, rfl, rfl⟩

theorem daysFromCivil_shift (y m d k : ℤ) :
    daysFromCivil y m (d - k) = daysFromCivil y m d - k := by
  unfold daysFromCivil
  dsimp only
  split_ifs <;> omega

theorem isInPeriod_today (td now : JsDate) :
    isInPeriod td "Today" now = true ↔ sameCalendarDay td now := by
  unfold isInPeriod
  rw [if_pos rfl]
  simp only [mkDate_civil, beq_iff_eq, ms_mk]
  rw [sameCalendarDay_iff]
  unfold startOfDay msPerDay
  omega

theorem isInPeriod_week (td now : JsDate) :
    isInPeriod td "Week" now = true ↔ inTrailingWeek td now := by
  unfold isInPeriod
  rw [if_neg (by decide), if_pos rfl]
  rw [mkDate_civil now]
  obtain ⟨hy, hm, hd⟩ := getters_midnight now
  rw [hy, hm, hd]
  have hshift : (mkDate (getFullYear now) (getMonth now) (getDate now - 7)).ms
      = startOfDay now - 7 * msPerDay := by
    unfold mkDate
    rw [ms_mk, daysFromCivil_shift]
    have h2 : msPerDay * daysFromCivil (getFullYear now) (getMonth now + 1) (getDate now)
        = startOfDay now := by
      have h := mkDate_civil now
      unfold mkDate at h
      rw [← ms_mk (msPerDay * daysFromCivil (getFullYear now) (getMonth now + 1) (getDate now)),
        h, ms_mk]
    unfold msPerDay at *
    omega
  rw [hshift]
  unfold inTrailingWeek
  simp only [Bool.and_eq_true, decide_eq_true_eq]

theorem isInPeriod_month (td now : JsDate) :
    isInPeriod td "Month" now = true ↔ sameCalendarMonth td now := by
  unfold isInPeriod
  rw [if_neg (by decide), if_neg (by decide), if_pos rfl]
  unfold sameCalendarMonth
  simp only [Bool.and_eq_true, beq_iff_eq]

theorem isInPeriod_year (td now : JsDate) :
    isInPeriod td "Year" now = true ↔ sameCalendarYear td now := by
  unfold isInPeriod
  rw [if_neg (by decide), if_neg (by decide), if_neg (by decide), if_pos rfl]
  unfold sameCalendarYear
  simp only [beq_iff_eq]

/-! ## Helper lemmas on the JavaScript-number operations and metrics -/

theorem jsRound_eq_floor (q : ℚ) : jsRound q = ⌊q + 1 / 2⌋ := by
  unfold jsRound
  rw [Rat.floor_def, ← Rat.floor_def']

theorem jsAdd_assoc (a b c : JsNum) : jsAdd (jsAdd a b) c = jsAdd a (jsAdd b c) := by
  cases a <;> cases b <;> cases c <;> simp [jsAdd, add_assoc]

theorem jsAdd_some_zero (a : JsNum) : jsAdd a (some 0) = a := by
  cases a <;> simp [jsAdd]

theorem jsAdd_zero_some (a : JsNum) : jsAdd (some 0) a = a := by
  cases a <;> simp [jsAdd]

theorem foldl_jsAdd (g : TripRecord → JsNum) (init : JsNum) (l : List TripRecord) :
    l.foldl (fun s t => jsAdd s (g t)) init = jsAdd init (jsSum (l.map g)) := by
  induction l generalizing init with
  | nil => simp [jsSum, jsAdd_some_zero]
  | cons t ts ih =>
    simp only [List.foldl_cons, List.map_cons, jsSum, List.foldr_cons]
    rw [ih]
    rw [← jsAdd_assoc]
    rfl

theorem metrics_ne_nil (trips : List TripRecord) (h : trips ≠ []) :
    metrics trips =
      { totalDistance := totalDistanceOf trips,
        totalFuelLiters := totalFuelLitersOf trips,
        avgFuelPer100km := avgFuelPer100kmOf trips,
        totalDurationSeconds := totalDurationSecondsOf trips,
        totalCostCZK := totalCostCZKOf trips,
        totalCO2kg := totalCO2kgOf trips,
        avgCO2PerKm := avgCO2PerKmOf trips,
        avgSpeed := avgSpeedOf trips,
        costPerKm := costPerKmOf trips,
        treesToOffset := treesToOffsetOf trips,
        carbonFootprintRating := carbonFootprintRatingOf trips,
        fuelEfficiencyRating := fuelEfficiencyRatingOf trips,
        emissionLevel := emissionLevelOf trips } := by
  unfold metrics
  rw [if_neg (by simpa using h)]

theorem getCarCost_eval (trip : Trip) (cars : List Car) (prices : String → Option ℚ)
    (d : ℚ) (car : Car) (eff price : ℚ)
    (hd : tripDistanceKm trip = some d) (hd0 : d ≠ 0)
    (hfind : cars.find? (fun c => toLowerStr (c.brand ++ " " ++ c.model) == toLowerStr trip.carModel)
      = some car)
    (heff : parseEfficiencyValue car.efficiency = some eff) (heff0 : eff ≠ 0)
    (hp : prices car.fuelType = some price) (hp0 : price ≠ 0) :
    getCarCost trip cars prices = ((jsRound (d * (eff / 100) * price * 100) : ℤ) : ℚ) / 100 := by
  unfold getCarCost
  rw [hd]
  dsimp only
  rw [if_neg hd0, hfind]
  dsimp only
  rw [heff]
  dsimp only
  rw [if_neg heff0, hp]
  dsimp only
  rw [if_neg hp0]

theorem toFixed1_zero : toFixed1 0 = "0.0" := by
  unfold toFixed1 toFixed1Nonneg
  rw [if_neg (lt_irrefl 0)]
  have h : ⌊(0 : ℚ) * 10 + 1 / 2⌋ = 0 := by norm_num
  rw [h]
  rfl

/-! ## Claim C2: public-transport fare -/

/-- C2: for every distance, duration and vehicle-kind list, if any kind
denotes rail/train service the fare is `round(distanceKm * 1.5)` CZK
regardless of duration; otherwise the fare is determined solely by the
duration tiers `< 30 → 30`, `30–90 inclusive → 40`, `> 90 → 120`. -/
theorem claimC2_transitFare (distance durationMinutes : ℚ) (transitTypes : List String) :
    (hasTrainService transitTypes = true →
      calculatePublicTransportCost distance durationMinutes transitTypes
        = toString (jsRound (distance * (3 / 2))) ++ " CZK") ∧
    (hasTrainService transitTypes = false →
      (durationMinutes < 30 →
        calculatePublicTransportCost distance durationMinutes transitTypes = "30 CZK") ∧
      (30 ≤ durationMinutes ∧ durationMinutes ≤ 90 →
        calculatePublicTransportCost distance durationMinutes transitTypes = "40 CZK") ∧
      (90 < durationMinutes →
        calculatePublicTransportCost distance durationMinutes transitTypes = "120 CZK")) := by
  unfold calculatePublicTransportCost
  constructor
  · intro h
    rw [if_pos h]
  · intro h
    rw [h]
    simp only [Bool.false_eq_true, if_false]
    refine ⟨?_, ?_, ?_⟩
    · intro hlt
      rw [if_pos hlt]
    · rintro ⟨h30, h90⟩
      rw [if_neg (by linarith), if_pos h90]
    · intro h90
      rw [if_neg (by linarith), if_neg (by linarith)]

unseal Rat.add Rat.mul Rat.inv Rat.sub Rat.ofScientific in
/-- C2 witness: the claim's boundary cases, obtained from `claimC2_transitFare`
at concrete inputs. -/
theorem claimC2_transitFare_witness :
    calculatePublicTransportCost 100 29 ["Bus"] = "30 CZK" ∧
    calculatePublicTransportCost 100 30 ["Bus"] = "40 CZK" ∧
    calculatePublicTransportCost 100 90 ["Bus"] = "40 CZK" ∧
    calculatePublicTransportCost 100 91 ["Bus"] = "120 CZK" ∧
    calculatePublicTransportCost 20 999 ["Train"] = "30 CZK" := by
  refine ⟨?_, ?_, ?_, ?_, ?_⟩
  · exact ((claimC2_transitFare 100 29 ["Bus"]).2 (by decide)).1 (by norm_num)
  · exact ((claimC2_transitFare 100 30 ["Bus"]).2 (by decide)).2.1 ⟨by norm_num, by norm_num⟩
  · exact ((claimC2_transitFare 100 90 ["Bus"]).2 (by decide)).2.1 ⟨by norm_num, by norm_num⟩
  · exact ((claimC2_transitFare 100 91 ["Bus"]).2 (by decide)).2.2 (by norm_num)
  · exact ((claimC2_transitFare 20 999 ["Train"]).1 (by decide)).trans (by decide)

/-! ## Claim C7: car trip emissions -/

/-- C7: a missing market segment or fuel type yields `"N/A"`, otherwise the
emissions are `factor * distanceKm` kilograms formatted to one decimal; the
Battery Electric factor is 0 in every segment of the table, so every Battery
Electric lookup yields `"0.0kg CO₂"` at any distance. -/
theorem claimC7_carTripEmissions (fuelType marketSegment : String) (distanceKm : ℚ) :
    (emissionFactors marketSegment = none →
      calculateRealEmissions fuelType marketSegment distanceKm = "N/A") ∧
    (∀ segmentData, emissionFactors marketSegment = some segmentData →
      (segmentData fuelType = none →
        calculateRealEmissions fuelType marketSegment distanceKm = "N/A") ∧
      (∀ factor, segmentData fuelType = some factor →
        calculateRealEmissions fuelType marketSegment distanceKm
          = toFixed1 (factor * distanceKm) ++ "kg CO₂")) ∧
    (marketSegment = "Small car" ∨ marketSegment = "Medium car" ∨
        marketSegment = "Large car" ∨ marketSegment = "Average car" →
      calculateRealEmissions "Battery Electric Vehicle" marketSegment distanceKm
        = "0.0kg CO₂") := by
  refine ⟨?_, ?_, ?_⟩
  · intro h
    unfold calculateRealEmissions
    rw [h]
  · intro segmentData h
    constructor
    · intro h2
      unfold calculateRealEmissions
      rw [h]
      dsimp only
      rw [h2]
    · intro factor h2
      unfold calculateRealEmissions
      rw [h]
      dsimp only
      rw [h2]
      dsimp only
      split_ifs <;> rfl
  · have hbev : ∀ segmentData, emissionFactors marketSegment = some segmentData →
        segmentData "Battery Electric Vehicle" = some 0 →
        calculateRealEmissions "Battery Electric Vehicle" marketSegment distanceKm
          = "0.0kg CO₂" := by
      intro segmentData h h0
      unfold calculateRealEmissions
      rw [h]
      dsimp only
      rw [h0]
      dsimp only
      rw [zero_mul]
      split_ifs <;> rw [toFixed1_zero] <;> rfl
    rintro (h | h | h | h) <;> subst h
    · exact hbev smallCarFactors rfl rfl
    · exact hbev mediumCarFactors rfl rfl
    · exact hbev largeCarFactors rfl rfl
    · exact hbev averageCarFactors rfl rfl

/-- C7 witness: concrete instances of `claimC7_carTripEmissions`. -/
theorem claimC7_carTripEmissions_witness :
    calculateRealEmissions "Battery Electric Vehicle" "Average car" 42 = "0.0kg CO₂" ∧
    calculateRealEmissions "Diesel" "Tiny car" 5 = "N/A" := by
  constructor
  · exact (claimC7_carTripEmissions "Battery Electric Vehicle" "Average car" 42).2.2
      (by right; right; right; rfl)
  · exact (claimC7_carTripEmissions "Diesel" "Tiny car" 5).1 rfl

/-! ## Claim C1 (corrected): car trip cost -/

unseal Rat.add Rat.mul Rat.inv Rat.sub Rat.ofScientific in
/-- C1 counterexample: the claim says every strictly negative `distanceKm`
yields the unavailable marker (the number 0); the source's guard
`!distanceKm || Number.isNaN(distanceKm)` lets negative distances through,
producing a computed negative cost. -/
theorem claimC1_counterexample :
    getCarCost ⟨"Ford Fiesta", StrOrNum.num (some (-10))⟩
      [⟨"Ford", "Fiesta", "Petrol", "6.0L/100km"⟩] czFuelPrices = -2023 / 100 ∧
    ((-2023 : ℚ) / 100) ≠ 0 :=
  ⟨by decide, by norm_num⟩

/-- C1 (amended): `getCarCost` returns the unavailable marker 0 exactly when
the distance is `NaN` or 0, the car is not found, the efficiency is
unparsable or parses to 0, or the price is absent or 0; otherwise — for any
other distance, including strictly negative ones — it returns
`distanceKm * (eff / 100) * unitPrice` rounded to 2 decimals, which for a
negative distance and positive rate is a non-positive computed cost rather
than a guaranteed marker. -/
theorem claimC1_amended (trip : Trip) (cars : List Car) (prices : String → Option ℚ) :
    (tripDistanceKm trip = none → getCarCost trip cars prices = 0) ∧
    (tripDistanceKm trip = some 0 → getCarCost trip cars prices = 0) ∧
    (∀ d, tripDistanceKm trip = some d → d ≠ 0 →
      (cars.find? (fun c => toLowerStr (c.brand ++ " " ++ c.model) == toLowerStr trip.carModel)
          = none → getCarCost trip cars prices = 0) ∧
      (∀ car,
        cars.find? (fun c => toLowerStr (c.brand ++ " " ++ c.model) == toLowerStr trip.carModel)
            = some car →
        (parseEfficiencyValue car.efficiency = none → getCarCost trip cars prices = 0) ∧
        (parseEfficiencyValue car.efficiency = some 0 → getCarCost trip cars prices = 0) ∧
        (∀ eff, parseEfficiencyValue car.efficiency = some eff → eff ≠ 0 →
          (prices car.fuelType = none → getCarCost trip cars prices = 0) ∧
          (prices car.fuelType = some 0 → getCarCost trip cars prices = 0) ∧
          (∀ price, prices car.fuelType = some price → price ≠ 0 →
            getCarCost trip cars prices
              = ((jsRound (d * (eff / 100) * price * 100) : ℤ) : ℚ) / 100 ∧
            (d < 0 → 0 < eff → 0 < price → getCarCost trip cars prices ≤ 0))))) := by
  refine ⟨?_, ?_, ?_⟩
  · intro h
    unfold getCarCost
    rw [h]
  · intro h
    unfold getCarCost
    rw [h]
    dsimp only
    rw [if_pos rfl]
  · intro d hd hd0
    constructor
    · intro hfind
      unfold getCarCost
      rw [hd]
      dsimp only
      rw [if_neg hd0, hfind]
    · intro car hfind
      refine ⟨?_, ?_, ?_⟩
      · intro heff
        unfold getCarCost
        rw [hd]
        dsimp only
        rw [if_neg hd0, hfind]
        dsimp only
        rw [heff]
      · intro heff
        unfold getCarCost
        rw [hd]
        dsimp only
        rw [if_neg hd0, hfind]
        dsimp only
        rw [heff]
        dsimp only
        rw [if_pos rfl]
      · intro eff heff heff0
        refine ⟨?_, ?_, ?_⟩
        · intro hp
          unfold getCarCost
          rw [hd]
          dsimp only
          rw [if_neg hd0, hfind]
          dsimp only
          rw [heff]
          dsimp only
          rw [if_neg heff0, hp]
        · intro hp
          unfold getCarCost
          rw [hd]
          dsimp only
          rw [if_neg hd0, hfind]
          dsimp only
          rw [heff]
          dsimp only
          rw [if_neg heff0, hp]
          dsimp only
          rw [if_pos rfl]
        · intro price hp hp0
          have hval := getCarCost_eval trip cars prices d car eff price hd hd0 hfind heff heff0 hp hp0
          refine ⟨hval, ?_⟩
          intro hdneg heffpos hppos
          rw [hval, jsRound_eq_floor]
          have hq : d * (eff / 100) * price * 100 < 0 := by
            have h1 : d * (eff / 100) < 0 := mul_neg_of_neg_of_pos hdneg (by positivity)
            have h2 : d * (eff / 100) * price < 0 := mul_neg_of_neg_of_pos h1 hppos
            linarith
          have hfl : ⌊d * (eff / 100) * price * 100 + 1 / 2⌋ ≤ 0 := by
            have : ⌊d * (eff / 100) * price * 100 + 1 / 2⌋ < 1 := by
              rw [Int.floor_lt]
              push_cast
              linarith
            omega
          apply div_nonpos_of_nonpos_of_nonneg _ (by norm_num)
          exact_mod_cast hfl

unseal Rat.add Rat.mul Rat.inv Rat.sub Rat.ofScientific in
/-- C1 witness: the amended computed branch at a concrete resolvable trip. -/
theorem claimC1_amended_witness :
    getCarCost ⟨"Ford Fiesta", StrOrNum.num (some 10)⟩
      [⟨"Ford", "Fiesta", "Petrol", "6.0L/100km"⟩] czFuelPrices
      = ((jsRound ((10 : ℚ) * ((6 : ℚ) / 100) * (3371 / 100) * 100) : ℤ) : ℚ) / 100 :=
  (((((claimC1_amended ⟨"Ford Fiesta", StrOrNum.num (some 10)⟩
      [⟨"Ford", "Fiesta", "Petrol", "6.0L/100km"⟩] czFuelPrices).2.2 10 rfl
      (by norm_num)).2 ⟨"Ford", "Fiesta", "Petrol", "6.0L/100km"⟩
      (by decide)).2.2 6 (by decide) (by norm_num)).2.2 (3371 / 100)
      rfl (by norm_num)).1

/-! ## Claim C8 (corrected): monotonicity and linearity of the car cost -/

unseal Rat.add Rat.mul Rat.inv Rat.sub Rat.ofScientific in
/-- C8 counterexample: the cost is rounded to 2 decimals, so it is not
exactly `distanceKm × k`: at distance 1 the code yields 2.02 CZK while
`1 × (6/100 × 33.71) = 2.0226`. -/
theorem claimC8_counterexample :
    getCarCost ⟨"Ford Fiesta", StrOrNum.num (some 1)⟩
      [⟨"Ford", "Fiesta", "Petrol", "6.0L/100km"⟩] czFuelPrices = 101 / 50 ∧
    (101 / 50 : ℚ) ≠ 1 * ((6 / 100 : ℚ) * (3371 / 100)) :=
  ⟨by decide, by norm_num⟩

/-- C8 (amended): for a resolvable vehicle with positive parsed efficiency
and positive unit price, `getCarCost` is monotonically non-decreasing in the
distance on `0 < d1 ≤ d2`, and is linear in the distance up to the
2-decimal rounding: it differs from `d × k`, `k = (eff / 100) × unitPrice`,
by at most half a cent (1/200). -/
theorem claimC8_amended (car : Car) (prices : String → Option ℚ) (eff price : ℚ)
    (heff : parseEfficiencyValue car.efficiency = some eff) (heff0 : 0 < eff)
    (hp : prices car.fuelType = some price) (hp0 : 0 < price) :
    (∀ d1 d2 : ℚ, 0 < d1 → d1 ≤ d2 →
      getCarCost ⟨car.brand ++ " " ++ car.model, StrOrNum.num (some d1)⟩ [car] prices ≤
        getCarCost ⟨car.brand ++ " " ++ car.model, StrOrNum.num (some d2)⟩ [car] prices) ∧
    (∀ d : ℚ, 0 < d →
      |getCarCost ⟨car.brand ++ " " ++ car.model, StrOrNum.num (some d)⟩ [car] prices
        - d * (eff / 100 * price)| ≤ 1 / 200) := by
  have hfind : [car].find?
      (fun c => toLowerStr (c.brand ++ " " ++ c.model)
        == toLowerStr (car.brand ++ " " ++ car.model)) = some car := by
    simp [List.find?]
  have hval : ∀ d : ℚ, d ≠ 0 →
      getCarCost ⟨car.brand ++ " " ++ car.model, StrOrNum.num (some d)⟩ [car] prices
        = ((⌊d * (eff / 100) * price * 100 + 1 / 2⌋ : ℤ) : ℚ) / 100 := by
    intro d hd0
    rw [getCarCost_eval ⟨car.brand ++ " " ++ car.model, StrOrNum.num (some d)⟩ [car] prices
      d car eff price rfl hd0 hfind heff (ne_of_gt heff0) hp (ne_of_gt hp0)]
    rw [jsRound_eq_floor]
  constructor
  · intro d1 d2 hd1 hd12
    rw [hval d1 (ne_of_gt hd1), hval d2 (ne_of_gt (lt_of_lt_of_le hd1 hd12))]
    have harg : d1 * (eff / 100) * price * 100 + 1 / 2
        ≤ d2 * (eff / 100) * price * 100 + 1 / 2 := by
      have hk : (0 : ℚ) ≤ eff / 100 * price * 100 := by positivity
      nlinarith
    have hfl := Int.floor_le_floor harg
    have hflq : ((⌊d1 * (eff / 100) * price * 100 + 1 / 2⌋ : ℤ) : ℚ)
        ≤ ((⌊d2 * (eff / 100) * price * 100 + 1 / 2⌋ : ℤ) : ℚ) := by exact_mod_cast hfl
    linarith
  · intro d hd
    rw [hval d (ne_of_gt hd)]
    have h1 : ((⌊d * (eff / 100) * price * 100 + 1 / 2⌋ : ℤ) : ℚ)
        ≤ d * (eff / 100) * price * 100 + 1 / 2 := Int.floor_le _
    have h2 : d * (eff / 100) * price * 100 + 1 / 2
        < ((⌊d * (eff / 100) * price * 100 + 1 / 2⌋ : ℤ) : ℚ) + 1 := Int.lt_floor_add_one _
    have hqd : d * (eff / 100) * price * 100 / 100 = d * (eff / 100 * price) := by ring
    rw [abs_le]
    constructor <;> [nlinarith; nlinarith]

unseal Rat.add Rat.mul Rat.inv Rat.sub Rat.ofScientific in
/-- C8 witness: the amended monotonicity and rounding bound at concrete
inputs. -/
theorem claimC8_amended_witness :
    (getCarCost ⟨"Ford" ++ " " ++ "Fiesta", StrOrNum.num (some 1)⟩
        [⟨"Ford", "Fiesta", "Petrol", "6.0L/100km"⟩] czFuelPrices ≤
      getCarCost ⟨"Ford" ++ " " ++ "Fiesta", StrOrNum.num (some 2)⟩
        [⟨"Ford", "Fiesta", "Petrol", "6.0L/100km"⟩] czFuelPrices) ∧
    |getCarCost ⟨"Ford" ++ " " ++ "Fiesta", StrOrNum.num (some 1)⟩
        [⟨"Ford", "Fiesta", "Petrol", "6.0L/100km"⟩] czFuelPrices
      - 1 * ((6 : ℚ) / 100 * (3371 / 100))| ≤ 1 / 200 := by
  have h := claimC8_amended ⟨"Ford", "Fiesta", "Petrol", "6.0L/100km"⟩ czFuelPrices
    6 (3371 / 100) (by decide) (by norm_num)
    rfl (by norm_num)
  exact ⟨h.1 1 2 one_pos (by norm_num), h.2 1 one_pos⟩

/-! ## Claim C3: empty-set contract of the metrics -/

/-- C3: on an empty filtered set every numeric metric is 0 and the three
ratings are the literal "No Data"; on a non-empty filtered set the
ratings are never "No Data", so the empty state is distinguishable even
when a non-empty set has true totals 0. -/
theorem claimC3_emptySet :
    ((metrics []).totalDistance = 0 ∧ (metrics []).totalFuelLiters = some 0 ∧
      (metrics []).avgFuelPer100km = some 0 ∧ (metrics []).totalDurationSeconds = 0 ∧
      (metrics []).totalCostCZK = some 0 ∧ (metrics []).totalCO2kg = some 0 ∧
      (metrics []).avgCO2PerKm = some 0 ∧ (metrics []).avgSpeed = 0 ∧
      (metrics []).costPerKm = some 0 ∧ (metrics []).treesToOffset = some 0 ∧
      (metrics []).carbonFootprintRating = "No Data" ∧
      (metrics []).fuelEfficiencyRating = "No Data" ∧
      (metrics []).emissionLevel = "No Data") ∧
    (∀ trips : List TripRecord, trips ≠ [] →
      (metrics trips).carbonFootprintRating ≠ "No Data" ∧
      (metrics trips).fuelEfficiencyRating ≠ "No Data" ∧
      (metrics trips).emissionLevel ≠ "No Data") := by
  constructor
  · exact ⟨rfl, rfl, rfl, rfl, rfl, rfl, rfl, rfl, rfl, rfl, rfl, rfl, rfl⟩
  · intro trips h
    rw [metrics_ne_nil trips h]
    refine ⟨?_, ?_, ?_⟩
    · show carbonFootprintRatingOf trips ≠ "No Data"
      unfold carbonFootprintRatingOf
      split_ifs <;> decide
    · show fuelEfficiencyRatingOf trips ≠ "No Data"
      unfold fuelEfficiencyRatingOf
      split_ifs <;> decide
    · show emissionLevelOf trips ≠ "No Data"
      unfold emissionLevelOf
      split_ifs <;> decide

/-- C3 witness: a one-trip list whose totals are parsed as 0 still gets real
ratings, distinguishable from the empty state. -/
theorem claimC3_emptySet_witness :
    (metrics [⟨"u1", "Sales", "", "", "Ford", "Fiesta", "Petrol", "none",
        "0", "0 min", "0g CO₂", "car", "0 CZK", "A", "B", "", 0⟩]).carbonFootprintRating
      ≠ "No Data" ∧
    (metrics [⟨"u1", "Sales", "", "", "Ford", "Fiesta", "Petrol", "none",
        "0", "0 min", "0g CO₂", "car", "0 CZK", "A", "B", "", 0⟩]).fuelEfficiencyRating
      ≠ "No Data" ∧
    (metrics [⟨"u1", "Sales", "", "", "Ford", "Fiesta", "Petrol", "none",
        "0", "0 min", "0g CO₂", "car", "0 CZK", "A", "B", "", 0⟩]).emissionLevel
      ≠ "No Data" :=
  claimC3_emptySet.2 _ (List.cons_ne_nil _ _)

/-! ## Claim C4: classification boundaries -/

/-- C4: for a non-empty filtered set the three qualitative ratings are
exactly the threshold classifications of the claim, with the stated
strict/inclusive boundaries. -/
theorem claimC4_ratings (trips : List TripRecord) (h : trips ≠ []) :
    (∀ c : ℚ, (metrics trips).totalCO2kg = some c →
      (((metrics trips).carbonFootprintRating = "Low") ↔ c < 100) ∧
      (((metrics trips).carbonFootprintRating = "Moderate") ↔ 100 ≤ c ∧ c < 500) ∧
      (((metrics trips).carbonFootprintRating = "High") ↔ 500 ≤ c)) ∧
    (∀ f : ℚ, (metrics trips).avgFuelPer100km = some f →
      (((metrics trips).fuelEfficiencyRating = "Good") ↔ f ≤ 6) ∧
      (((metrics trips).fuelEfficiencyRating = "Moderate") ↔ 6 < f ∧ f ≤ 8) ∧
      (((metrics trips).fuelEfficiencyRating = "Poor") ↔ 8 < f)) ∧
    (∀ g : ℚ, (metrics trips).avgCO2PerKm = some g →
      (((metrics trips).emissionLevel = "Excellent") ↔ g ≤ 50) ∧
      (((metrics trips).emissionLevel = "Good") ↔ 50 < g ∧ g ≤ 100) ∧
      (((metrics trips).emissionLevel = "Moderate") ↔ 100 < g ∧ g ≤ 150) ∧
      (((metrics trips).emissionLevel = "High") ↔ 150 < g ∧ g ≤ 200) ∧
      (((metrics trips).emissionLevel = "Very High") ↔ 200 < g)) := by
  rw [metrics_ne_nil trips h]
  refine ⟨?_, ?_, ?_⟩
  · intro c hc
    show (carbonFootprintRatingOf trips = "Low" ↔ c < 100) ∧ _ ∧ _
    unfold carbonFootprintRatingOf
    rw [show totalCO2kgOf trips = some c from hc]
    unfold jsLt
    dsimp only
    split_ifs with h1 h2 <;>
      refine ⟨?_, ?_, ?_⟩ <;> simp_all <;> intros <;> linarith
  · intro f hf
    show (fuelEfficiencyRatingOf trips = "Good" ↔ f ≤ 6) ∧ _ ∧ _
    unfold fuelEfficiencyRatingOf
    rw [show avgFuelPer100kmOf trips = some f from hf]
    unfold jsLe
    dsimp only
    split_ifs with h1 h2 <;>
      refine ⟨?_, ?_, ?_⟩ <;> simp_all <;> intros <;> linarith
  · intro g hg
    show (emissionLevelOf trips = "Excellent" ↔ g ≤ 50) ∧ _ ∧ _ ∧ _ ∧ _
    unfold emissionLevelOf
    rw [show avgCO2PerKmOf trips = some g from hg]
    unfold jsLe
    dsimp only
    split_ifs with h1 h2 h3 h4 <;>
      refine ⟨?_, ?_, ?_, ?_, ?_⟩ <;> simp_all <;> intros <;> linarith

unseal Rat.add Rat.mul Rat.inv Rat.sub Rat.ofScientific in
/-- C4 witness: a trip with avgCO2PerKm exactly 50 g/km, avgFuelPer100km
exactly 6 L and totalCO2 0.05 kg hits the inclusive boundaries: Excellent,
Good, Low. -/
theorem claimC4_ratings_witness :
    (metrics [⟨"u1", "Sales", "", "", "Ford", "Fiesta", "Petrol", "6.0L/100km",
        "1", "1h", "50g CO₂", "car", "10 CZK", "A", "B", "", 0⟩]).carbonFootprintRating
      = "Low" ∧
    (metrics [⟨"u1", "Sales", "", "", "Ford", "Fiesta", "Petrol", "6.0L/100km",
        "1", "1h", "50g CO₂", "car", "10 CZK", "A", "B", "", 0⟩]).fuelEfficiencyRating
      = "Good" ∧
    (metrics [⟨"u1", "Sales", "", "", "Ford", "Fiesta", "Petrol", "6.0L/100km",
        "1", "1h", "50g CO₂", "car", "10 CZK", "A", "B", "", 0⟩]).emissionLevel
      = "Excellent" := by
  have h := claimC4_ratings [⟨"u1", "Sales", "", "", "Ford", "Fiesta", "Petrol", "6.0L/100km",
    "1", "1h", "50g CO₂", "car", "10 CZK", "A", "B", "", 0⟩] (List.cons_ne_nil _ _)
  refine ⟨?_, ?_, ?_⟩
  · exact ((h.1 (1 / 20) (by decide)).1).mpr (by norm_num)
  · exact ((h.2.1 6 (by decide)).1).mpr (by norm_num)
  · exact ((h.2.2 50 (by decide)).1).mpr (by norm_num)

/-! ## Claim C5: derived metrics -/

/-- C5: on a non-empty filtered set the derived metrics are the claim's
formulas: `avgFuelPer100km = totalFuel / totalDistance × 100` (0 when the
total distance is 0), `avgCO2PerKm = totalCO2 × 1000 / totalDistance`,
`avgSpeed = totalDistance / (totalDurationSeconds / 3600)`,
`costPerKm = totalCost / totalDistance` and
`treesToOffset = ceil(totalCO2 / 21)`. -/
theorem claimC5_derived (trips : List TripRecord) (h : trips ≠ []) :
    (0 < totalDistanceOf trips → ∀ f, totalFuelLitersOf trips = some f →
      (metrics trips).avgFuelPer100km = some (f / totalDistanceOf trips * 100)) ∧
    (totalDistanceOf trips = 0 → (metrics trips).avgFuelPer100km = some 0) ∧
    (0 < totalDistanceOf trips → ∀ c, totalCO2kgOf trips = some c →
      (metrics trips).avgCO2PerKm = some (c * 1000 / totalDistanceOf trips)) ∧
    (0 < totalDurationSecondsOf trips →
      (metrics trips).avgSpeed = totalDistanceOf trips / (totalDurationSecondsOf trips / 3600)) ∧
    (0 < totalDistanceOf trips → ∀ c, totalCostCZKOf trips = some c →
      (metrics trips).costPerKm = some (c / totalDistanceOf trips)) ∧
    (∀ c, totalCO2kgOf trips = some c → (metrics trips).treesToOffset = some ⌈c / 21⌉) := by
  rw [metrics_ne_nil trips h]
  refine ⟨?_, ?_, ?_, ?_, ?_, ?_⟩
  · intro hpos f hf
    show avgFuelPer100kmOf trips = _
    unfold avgFuelPer100kmOf
    rw [if_pos hpos, hf]
    rfl
  · intro h0
    show avgFuelPer100kmOf trips = some 0
    unfold avgFuelPer100kmOf
    rw [if_neg (by rw [h0]; exact lt_irrefl 0)]
  · intro hpos c hc
    show avgCO2PerKmOf trips = _
    unfold avgCO2PerKmOf
    rw [if_pos hpos, hc]
    rfl
  · intro hpos
    show avgSpeedOf trips = _
    unfold avgSpeedOf
    rw [if_pos hpos]
  · intro hpos c hc
    show costPerKmOf trips = _
    unfold costPerKmOf
    rw [if_pos hpos, hc]
    rfl
  · intro c hc
    show treesToOffsetOf trips = _
    unfold treesToOffsetOf
    rw [hc]
    rfl

unseal Rat.add Rat.mul Rat.inv Rat.sub Rat.ofScientific in
/-- C5 witness: the derived-metric formulas at a concrete one-trip list. -/
theorem claimC5_derived_witness :
    (metrics [⟨"u1", "Sales", "", "", "Ford", "Fiesta", "Petrol", "6.0L/100km",
        "2", "1h", "50g CO₂", "car", "10 CZK", "A", "B", "", 0⟩]).avgFuelPer100km
      = some ((3 / 25 : ℚ) / 2 * 100) ∧
    (metrics [⟨"u1", "Sales", "", "", "Ford", "Fiesta", "Petrol", "6.0L/100km",
        "2", "1h", "50g CO₂", "car", "10 CZK", "A", "B", "", 0⟩]).avgSpeed
      = 2 / ((3600 : ℚ) / 3600) ∧
    (metrics [⟨"u1", "Sales", "", "", "Ford", "Fiesta", "Petrol", "6.0L/100km",
        "2", "1h", "50g CO₂", "car", "10 CZK", "A", "B", "", 0⟩]).treesToOffset
      = some ⌈(1 / 20 : ℚ) / 21⌉ := by
  have h := claimC5_derived [⟨"u1", "Sales", "", "", "Ford", "Fiesta", "Petrol", "6.0L/100km",
    "2", "1h", "50g CO₂", "car", "10 CZK", "A", "B", "", 0⟩] (List.cons_ne_nil _ _)
  refine ⟨?_, ?_, ?_⟩
  · have := h.1 (by decide) (3 / 25) (by decide)
    rw [this]
    have hd : totalDistanceOf [⟨"u1", "Sales", "", "", "Ford", "Fiesta", "Petrol", "6.0L/100km",
        "2", "1h", "50g CO₂", "car", "10 CZK", "A", "B", "", 0⟩] = 2 := by decide
    rw [hd]
  · have := h.2.2.2.1 (by decide)
    rw [this]
    have hd : totalDistanceOf [⟨"u1", "Sales", "", "", "Ford", "Fiesta", "Petrol", "6.0L/100km",
        "2", "1h", "50g CO₂", "car", "10 CZK", "A", "B", "", 0⟩] = 2 := by decide
    have hs : totalDurationSecondsOf [⟨"u1", "Sales", "", "", "Ford", "Fiesta", "Petrol",
        "6.0L/100km", "2", "1h", "50g CO₂", "car", "10 CZK", "A", "B", "", 0⟩] = 3600 := by decide
    rw [hd, hs]
  · exact h.2.2.2.2.2 (1 / 20) (by decide)

/-! ## Claim C9 (corrected): total fuel from per-trip consumption -/

unseal Rat.add Rat.mul Rat.inv Rat.sub Rat.ofScientific in
/-- C9 counterexample: the claim's fallback rule says a label in which no
float parses before the `L` marker uses the constant 6.5 L/100km; on the
label `".L/100km"` the regex `([\d.]+)L` matches the run `"."`, whose
`parseFloat` is `NaN`, so the source's consumption is `NaN` — not 6.5 —
and the fuel total of the aggregation becomes `NaN` instead of the claim's
`10 × 6.5 / 100 = 0.65`. -/
theorem claimC9_counterexample :
    getFuelConsumption "Mys" ".L/100km" = none ∧
    (metrics [⟨"u1", "Sales", "", "", "My", "s", "Petrol", ".L/100km",
        "10", "1h", "50g CO₂", "car", "10 CZK", "A", "B", "", 0⟩]).totalFuelLiters = none ∧
    (none : JsNum) ≠ some (10 * (13 / 2) / 100) := by
  refine ⟨by decide, by decide, by decide⟩

/-- C9 (amended): the fuel total of a non-empty filtered set is the sum over
the trips of `distance × consumption / 100`, with the consumption obtained
independently per trip by `getFuelConsumption`; that per-trip consumption is
the parsed value of the first digit-or-dot run immediately preceding an `L`
when that run parses, the fallback 6.5 only when no such run exists, and
`NaN` (propagated into the total) when the run exists but is dots only. -/
theorem claimC9_amended (trips : List TripRecord) (h : trips ≠ []) :
    (metrics trips).totalFuelLiters
      = jsSum (trips.map (fun t =>
          jsDivC (jsMul (some (parseDistance t.distance))
            (getFuelConsumption t.carModel t.carEfficiency)) 100)) ∧
    (∀ model label, findRunFB isDigitOrDot (fun rest => rest.head? == some 'L')
        label.data.length label.data = none →
      getFuelConsumption model label = some (13 / 2)) ∧
    (∀ model label run v, findRunFB isDigitOrDot (fun rest => rest.head? == some 'L')
        label.data.length label.data = some run →
      parseRunToRat run = some v → getFuelConsumption model label = some v) ∧
    (∀ model label run, findRunFB isDigitOrDot (fun rest => rest.head? == some 'L')
        label.data.length label.data = some run →
      parseRunToRat run = none → getFuelConsumption model label = none) := by
  refine ⟨?_, ?_, ?_, ?_⟩
  · rw [metrics_ne_nil trips h]
    show totalFuelLitersOf trips = _
    unfold totalFuelLitersOf
    rw [foldl_jsAdd, jsAdd_zero_some]
  · intro model label hfind
    unfold getFuelConsumption
    rw [hfind]
  · intro model label run v hfind hparse
    unfold getFuelConsumption
    rw [hfind]
    exact hparse
  · intro model label run hfind hparse
    unfold getFuelConsumption
    rw [hfind]
    exact hparse

unseal Rat.add Rat.mul Rat.inv Rat.sub Rat.ofScientific in
/-- C9 witness: the amended sum identity at a concrete one-trip list, with
the summed value evaluated. -/
theorem claimC9_amended_witness :
    (metrics [⟨"u1", "Sales", "", "", "Ford", "Fiesta", "Petrol", "6.0L/100km",
        "2", "1h", "50g CO₂", "car", "10 CZK", "A", "B", "", 0⟩]).totalFuelLiters
      = jsSum ([⟨"u1", "Sales", "", "", "Ford", "Fiesta", "Petrol", "6.0L/100km",
          "2", "1h", "50g CO₂", "car", "10 CZK", "A", "B", "", 0⟩].map
          (fun t : TripRecord =>
            jsDivC (jsMul (some (parseDistance t.distance))
              (getFuelConsumption t.carModel t.carEfficiency)) 100)) ∧
    (metrics [⟨"u1", "Sales", "", "", "Ford", "Fiesta", "Petrol", "6.0L/100km",
        "2", "1h", "50g CO₂", "car", "10 CZK", "A", "B", "", 0⟩]).totalFuelLiters
      = some (3 / 25) :=
  ⟨(claimC9_amended _ (List.cons_ne_nil _ _)).1, by decide⟩

/-! ## Claim C10 (corrected): the CO₂ parser -/

/-- C10 counterexample: the claim says every string with no leading number
yields 0; on `"."` the regex `([\d.]+)` matches the run `"."`, whose
`parseFloat` is `NaN`, and `parseCO2` returns `NaN`, not 0. -/
theorem claimC10_counterexample :
    jsParseFloat "." = none ∧ parseCO2 "." = none ∧ (none : JsNum) ≠ some 0 := by
  refine ⟨by decide, by decide, by decide⟩

unseal Rat.add Rat.mul Rat.inv Rat.sub Rat.ofScientific in
/-- C10 (amended): `parseCO2` is total and detects units solely by the
presence of the substring `"kg"`: it scans for the first digit-or-dot run
anywhere in the string; no run at all yields 0, a run parsing to `v` yields
`v` when `"kg"` occurs anywhere and `v / 1000` (grams) otherwise — so the
unit-less `"123"` is treated as grams — and a dots-only run yields `NaN`. -/
theorem claimC10_amended (s : String) :
    (firstRun isDigitOrDot s.data = none → parseCO2 s = some 0) ∧
    (∀ run v, firstRun isDigitOrDot s.data = some run → parseRunToRat run = some v →
      parseCO2 s = if containsSub s "kg" then some v else some (v / 1000)) ∧
    (∀ run, firstRun isDigitOrDot s.data = some run → parseRunToRat run = none →
      parseCO2 s = none) ∧
    parseCO2 "123" = some (123 / 1000) := by
  refine ⟨?_, ?_, ?_, ?_⟩
  · intro hfind
    unfold parseCO2
    rw [hfind]
  · intro run v hfind hparse
    unfold parseCO2
    rw [hfind]
    dsimp only
    rw [hparse]
  · intro run hfind hparse
    unfold parseCO2
    rw [hfind]
    dsimp only
    rw [hparse]
  · decide

unseal Rat.add Rat.mul Rat.inv Rat.sub Rat.ofScientific in
/-- C10 witness: the amended parse rule at concrete labels. -/
theorem claimC10_amended_witness :
    parseCO2 "1.23kg CO₂" = some (123 / 100) ∧ parseCO2 "890g CO₂" = some (890 / 1000) := by
  constructor
  · have h := (claimC10_amended "1.23kg CO₂").2.1 ['1', '.', '2', '3'] (123 / 100)
      (by decide) (by decide)
    rw [h]
    decide
  · have h := (claimC10_amended "890g CO₂").2.1 ['8', '9', '0'] 890 (by decide) (by decide)
    rw [h]
    decide

/-! ## Claim C6: the trip filter -/

theorem keep_eq (trip : TripRecord) (filters : FilterState) (now : JsDate)
    (P : Prop) [Decidable P]
    (hiff : isInPeriod ⟨trip.tripTimestamp⟩ filters.period now = true ↔ P) :
    (if ¬(isInPeriod ⟨trip.tripTimestamp⟩ filters.period now = true) then false
     else if filters.department ≠ "" ∧ trip.userDepartment ≠ filters.department then false
     else if filters.driverName ≠ "" ∧ trip.userId ≠ filters.driverName then false
     else if filters.carModel ≠ "" ∧ trip.carModel ≠ filters.carModel then false
     else true) = decide (P ∧ matchesCriteria trip filters) := by
  split_ifs with h1 h2 h3 h4 <;> simp_all [matchesCriteria] <;> tauto

/-- C6: the dashboard filter keeps a trip exactly when its recorded timestamp
lies in the window named by the period — Today: same calendar day as now;
Week: from the start of the calendar day seven days before now's day through
now inclusive; Month: same calendar month and year; Year: same calendar
year — and each of the department, driver and vehicle-model criteria is
empty or equal to the trip's corresponding field. -/
theorem claimC6_filter (trips : List TripRecord) (filters : FilterState) (now : JsDate) :
    (filters.period = "Today" →
      filteredTrips trips filters now = trips.filter (fun t =>
        decide (sameCalendarDay ⟨t.tripTimestamp⟩ now ∧ matchesCriteria t filters))) ∧
    (filters.period = "Week" →
      filteredTrips trips filters now = trips.filter (fun t =>
        decide (inTrailingWeek ⟨t.tripTimestamp⟩ now ∧ matchesCriteria t filters))) ∧
    (filters.period = "Month" →
      filteredTrips trips filters now = trips.filter (fun t =>
        decide (sameCalendarMonth ⟨t.tripTimestamp⟩ now ∧ matchesCriteria t filters))) ∧
    (filters.period = "Year" →
      filteredTrips trips filters now = trips.filter (fun t =>
        decide (sameCalendarYear ⟨t.tripTimestamp⟩ now ∧ matchesCriteria t filters))) := by
  refine ⟨?_, ?_, ?_, ?_⟩ <;> intro hp <;> unfold filteredTrips <;>
    refine List.filter_congr ?_ <;> intro t _
  · exact keep_eq t filters now _ (by rw [hp]; exact isInPeriod_today ⟨t.tripTimestamp⟩ now)
  · exact keep_eq t filters now _ (by rw [hp]; exact isInPeriod_week ⟨t.tripTimestamp⟩ now)
  · exact keep_eq t filters now _ (by rw [hp]; exact isInPeriod_month ⟨t.tripTimestamp⟩ now)
  · exact keep_eq t filters now _ (by rw [hp]; exact isInPeriod_year ⟨t.tripTimestamp⟩ now)

/-- C6 witness: the filter identity applied at a concrete trip list, filter
state and clock, evaluated on both sides. -/
theorem claimC6_filter_witness :
    filteredTrips [⟨"u1", "Sales", "", "", "Ford", "Fiesta", "Petrol", "6.0L/100km",
        "2", "1h", "50g CO₂", "car", "10 CZK", "A", "B", "", 0⟩]
      ⟨"Today", "", "", ""⟩ ⟨43200000⟩
      = [⟨"u1", "Sales", "", "", "Ford", "Fiesta", "Petrol", "6.0L/100km",
          "2", "1h", "50g CO₂", "car", "10 CZK", "A", "B", "", 0⟩] := by
  have h := (claimC6_filter [⟨"u1", "Sales", "", "", "Ford", "Fiesta", "Petrol", "6.0L/100km",
    "2", "1h", "50g CO₂", "car", "10 CZK", "A", "B", "", 0⟩]
    ⟨"Today", "", "", ""⟩ ⟨43200000⟩).1 rfl
  rw [h]
  decide
